import Mathlib

/-!
A verification development for the external-process retrieval bridge in
`src/lib/rag-server.ts` (`queryFAISSVectorStore` and `checkRAGSystemStatus`).

The bridge spawns a worker process, accumulates its standard output, and reacts
to exactly one terminal event per run: the `error` event (spawn failure), or the
`close` event carrying an exit code (an integer, or null when the process was
killed by a signal) together with the accumulated stdout.  The surrounding
synchronous `try`/`catch` can also fire (modelled as a separate outcome).  We
embed each branch of the source as a pure function from that terminal outcome to
the value the promise is resolved (or rejected) with.

`JSON.parse` is embedded as an executable recursive-descent parser `jsonParse`
over the JSON fragment the worker protocol uses (objects, arrays, strings with
the single-character escapes, integer numbers, booleans, null, whitespace,
and rejection of trailing garbage); `\uXXXX` escapes and fractional/exponent
number forms are outside the modelled fragment.
-/

/-- JSON values, as produced by `JSON.parse`.  Numbers are restricted to the
integer fragment used by the worker protocol (`chunk_count`, `doc_count`). -/
inductive JValue where
  | null
  | bool (b : Bool)
  | num (n : Int)
  | str (s : String)
  | arr (elems : List JValue)
  | obj (fields : List (String × JValue))

/-- Last-binding lookup in a field list: `JSON.parse` keeps the last of
duplicate keys in a JavaScript object literal. -/
def lookupLast (key : String) : List (String × JValue) → Option JValue
  | [] => none
  | (k, v) :: rest =>
    match lookupLast key rest with
    | some r => some r
    | none => if k = key then some v else none

/-- JavaScript property access `v.key` on a non-null value: defined fields of
an object, `undefined` (`none`) on everything else.  Access on `null` throws a
TypeError and is handled separately at each use site. -/
def JValue.getField (v : JValue) (key : String) : Option JValue :=
  match v with
  | .obj fields => lookupLast key fields
  | _ => none

/-- JavaScript truthiness of a value. -/
def jsTruthyV : JValue → Bool
  | .null => false
  | .bool b => b
  | .num n => n != 0
  | .str s => s != ""
  | .arr _ => true
  | .obj _ => true

/-- JavaScript truthiness of a possibly-`undefined` property. -/
def jsTruthy : Option JValue → Bool
  | none => false
  | some v => jsTruthyV v

/-- JavaScript `a || b` on a possibly-`undefined` left operand. -/
def jsOr (a : Option JValue) (b : JValue) : JValue :=
  match a with
  | some v => if jsTruthyV v then v else b
  | none => b

/-- Skip JSON insignificant whitespace. -/
def skipWs : List Char → List Char
  | c :: cs => if c = ' ' ∨ c = '\t' ∨ c = '\n' ∨ c = '\r' then skipWs cs else c :: cs
  | [] => []

/-- Parse the body of a JSON string after the opening quote, handling the
single-character escapes and rejecting raw control characters.  Returns the
decoded string and the input remaining after the closing quote. -/
def parseStrChars : List Char → List Char → Option (String × List Char)
  | [], _ => none
  | '"' :: rest, acc => some (String.mk acc.reverse, rest)
  | '\\' :: e :: rest, acc =>
    match e with
    | '"' => parseStrChars rest ('"' :: acc)
    | '\\' => parseStrChars rest ('\\' :: acc)
    | '/' => parseStrChars rest ('/' :: acc)
    | 'n' => parseStrChars rest ('\n' :: acc)
    | 't' => parseStrChars rest ('\t' :: acc)
    | 'r' => parseStrChars rest ('\r' :: acc)
    | 'b' => parseStrChars rest ('\x08' :: acc)
    | 'f' => parseStrChars rest ('\x0c' :: acc)
    | _ => none
  | c :: rest, acc => if c.toNat < 0x20 then none else parseStrChars rest (c :: acc)

/-- Split a leading run of decimal digits from the input. -/
def takeDigits : List Char → List Char × List Char
  | c :: cs =>
    if c.isDigit then
      let (ds, r) := takeDigits cs
      (c :: ds, r)
    else ([], c :: cs)
  | [] => ([], [])

/-- Decimal value of a digit run. -/
def digitsToNat (ds : List Char) : Nat :=
  ds.foldl (fun a c => a * 10 + (c.toNat - 48)) 0

/-- Parse a JSON integer (optional minus, digits, no leading zeros). -/
def parseIntTok (cs : List Char) : Option (Int × List Char) :=
  let (neg, cs) :=
    match cs with
    | '-' :: rest => (true, rest)
    | _ => (false, cs)
  match takeDigits cs with
  | ([], _) => none
  | (d :: ds, rest) =>
    if d = '0' ∧ ds ≠ [] then none
    else
      let n : Int := Int.ofNat (digitsToNat (d :: ds))
      some (if neg then -n else n, rest)

/-- Consume an expected literal suffix. -/
def expectLit : List Char → List Char → Option (List Char)
  | [], cs => some cs
  | e :: es, c :: cs => if c = e then expectLit es cs else none
  | _ :: _, [] => none

mutual

/-- Fuel-indexed recursive-descent parser for a JSON value.  Returns the value
and the unconsumed remainder of the input. -/
def parseValue : Nat → List Char → Option (JValue × List Char)
  | 0, _ => none
  | fuel + 1, cs =>
    match skipWs cs with
    | [] => none
    | c :: rest =>
      if c = '"' then
        match parseStrChars rest [] with
        | some (s, r) => some (.str s, r)
        | none => none
      else if c = '\x7b' then
        match skipWs rest with
        | '\x7d' :: r => some (.obj [], r)
        | other => parseMembers fuel other []
      else if c = '[' then
        match skipWs rest with
        | ']' :: r => some (.arr [], r)
        | other => parseElements fuel other []
      else if c = 't' then
        match expectLit ['r', 'u', 'e'] rest with
        | some r => some (.bool true, r)
        | none => none
      else if c = 'f' then
        match expectLit ['a', 'l', 's', 'e'] rest with
        | some r => some (.bool false, r)
        | none => none
      else if c = 'n' then
        match expectLit ['u', 'l', 'l'] rest with
        | some r => some (.null, r)
        | none => none
      else if c = '-' ∨ c.isDigit then
        match parseIntTok (c :: rest) with
        | some (n, r) => some (.num n, r)
        | none => none
      else none

/-- Parse the members of a JSON object after the opening brace (first member
pending), accumulating parsed fields in source order. -/
def parseMembers : Nat → List Char → List (String × JValue) →
    Option (JValue × List Char)
  | 0, _, _ => none
  | fuel + 1, cs, acc =>
    match cs with
    | '"' :: rest =>
      match parseStrChars rest [] with
      | some (key, afterKey) =>
        match skipWs afterKey with
        | ':' :: afterColon =>
          match parseValue fuel afterColon with
          | some (v, afterVal) =>
            match skipWs afterVal with
            | ',' :: afterComma => parseMembers fuel (skipWs afterComma) ((key, v) :: acc)
            | '\x7d' :: r => some (.obj ((key, v) :: acc).reverse, r)
            | _ => none
          | none => none
        | _ => none
      | none => none
    | _ => none

/-- Parse the elements of a JSON array after the opening bracket (first element
pending), accumulating parsed elements in source order. -/
def parseElements : Nat → List Char → List JValue → Option (JValue × List Char)
  | 0, _, _ => none
  | fuel + 1, cs, acc =>
    match parseValue fuel cs with
    | some (v, afterVal) =>
      match skipWs afterVal with
      | ',' :: afterComma => parseElements fuel afterComma (v :: acc)
      | ']' :: r => some (.arr (v :: acc).reverse, r)
      | _ => none
    | none => none

end

/-- The embedding of `JSON.parse`: parse one JSON value and reject any trailing
non-whitespace (`parseError` paths in the source correspond to `none`). -/
def jsonParse (s : String) : Option JValue :=
  match parseValue (s.length + 2) s.toList with
  | some (v, rest) => if skipWs rest = [] then some v else none
  | none => none

/-- `indexOf` of the first opening brace in a character sequence, the JSON
delimiter the source searches stdout for. -/
def indexOfBrace : List Char → Option Nat
  | [] => none
  | c :: cs =>
    if c = '\x7b' then some 0 else (indexOfBrace cs).map (· + 1)

/-- The substring of the worker's accumulated stdout handed to `JSON.parse`:
`jsonStart = stdout.indexOf(brace)`, then `stdout.substring(jsonStart)` when
found, the whole stdout otherwise (source lines 47-48 / 116-117). -/
def jsonString (stdout : String) : String :=
  match indexOfBrace stdout.toList with
  | some i => String.mk (stdout.toList.drop i)
  | none => stdout

/-- The one terminal event of a spawned worker run that the bridge reacts to:
the `error` event (the process failed to launch), or the `close` event with an
exit code (`none` models a null code, i.e. termination by signal) and the
accumulated stdout.  `internalError` models the synchronous setup code inside
the promise executor throwing, which the outer `catch` absorbs. -/
inductive WorkerOutcome where
  | spawnError (message : String)
  | exited (code : Option Int) (stdout : String)
  | internalError (message : String)

/-- How a bridge promise settles: `resolved` with the JavaScript value passed
to `resolve`, or `rejected`.  The source never calls `reject`, which the
theorems below make precise. -/
inductive BridgeResult where
  | resolved (v : JValue)
  | rejected

/-- Advisory resolved on a non-zero (or null) exit code (source lines 38-41). -/
def exitFailureAdvisory : List JValue :=
  [.str "RAG system temporarily unavailable. Using general medical knowledge.",
   .str "Please ensure the FAISS index is properly built from your medical documents."]

/-- Advisory resolved when the spawn `error` event fires (source lines 67-70). -/
def spawnFailureAdvisory : List JValue :=
  [.str "RAG system unavailable. Please ensure Python dependencies are installed.",
   .str "Run: pip install -r requirements.txt"]

/-- Advisory resolved when parsing or payload dispatch throws (source line 62). -/
def parseFailureAdvisory : List JValue :=
  [.str "Error processing RAG query. Please check the system configuration."]

/-- Advisory resolved when the outer `catch` fires (source line 77). -/
def internalErrorAdvisory : List JValue :=
  [.str "RAG system error. Using fallback response."]

/-- Dispatch on a non-null parsed payload (source lines 52-57):
`if (result.error) resolve([result.error]); else resolve(result.chunks || [])`. -/
def dispatchNonNull (r : JValue) : BridgeResult :=
  if jsTruthy (r.getField "error") then
    .resolved (.arr [(r.getField "error").getD .null])
  else .resolved (jsOr (r.getField "chunks") (.arr []))

/-- Dispatch on the parsed payload (source lines 51-58).  When the payload is
JSON `null`, reading `result.error` throws a TypeError that the surrounding
`catch` absorbs into the parse-failure advisory; every other parsed value
supports property access. -/
def dispatchPayload : JValue → BridgeResult
  | .null => .resolved (.arr parseFailureAdvisory)
  | .bool b => dispatchNonNull (.bool b)
  | .num n => dispatchNonNull (.num n)
  | .str s => dispatchNonNull (.str s)
  | .arr xs => dispatchNonNull (.arr xs)
  | .obj fs => dispatchNonNull (.obj fs)

/-- The embedding of `queryFAISSVectorStore` (source lines 7-79) as a function
of the query, the `topK` bound, and the worker outcome.  The source inspects
neither argument when settling the promise (they only shape the spawn
arguments, see `queryWorkerArgs`), and every branch calls `resolve`. -/
def queryFAISSVectorStore (query : String) (topK : Int) (w : WorkerOutcome) :
    BridgeResult :=
  match w with
  | .spawnError _ => .resolved (.arr spawnFailureAdvisory)
  | .internalError _ => .resolved (.arr internalErrorAdvisory)
  | .exited code stdout =>
    if code ≠ some 0 then .resolved (.arr exitFailureAdvisory)
    else
      match jsonParse (jsonString stdout) with
      | none => .resolved (.arr parseFailureAdvisory)
      | some result => dispatchPayload result

/-- The argument vector passed to `spawn` for a retrieval run (source lines
20-25): the script path, the query verbatim, and `--top-k` followed by
`topK.toString()`.  `scriptPath` abstracts `path.join(process.cwd(), 'lib',
'rag_service.py')`, which depends only on the ambient working directory. -/
def queryWorkerArgs (scriptPath query : String) (topK : Int) : List String :=
  [scriptPath, query, "--top-k", toString topK]

mutual

/-- JavaScript string conversion of the values a parsed payload can hold, as
used by the template literal interpolating `status.doc_count` (array elements
that are null stringify to the empty string, per `Array.prototype.join`). -/
def jsToString : JValue → String
  | .null => "null"
  | .bool true => "true"
  | .bool false => "false"
  | .num n => toString n
  | .str s => s
  | .arr xs => String.intercalate "," (jsToStringElems xs)
  | .obj _ => "[object Object]"

/-- Stringification of array elements for `jsToString`. -/
def jsToStringElems : List JValue → List String
  | [] => []
  | .null :: rest => "" :: jsToStringElems rest
  | v :: rest => jsToString v :: jsToStringElems rest

end

/-- JavaScript string conversion of a possibly-`undefined` property. -/
def jsFieldToString : Option JValue → String
  | none => "undefined"
  | some v => jsToString v

/-- JavaScript string conversion of the `close` event's exit code (an integer,
or null after a signal kill), as interpolated into the check-failure message. -/
def jsCodeToString : Option Int → String
  | none => "null"
  | some c => toString c

/-- The `details` record attached to a readiness status (source lines 113-117,
125-131, 135-139, 144-146, 151-155): the exit code on check failure, the raw
stdout on a parse failure (the engine-supplied exception text carried alongside
it is opaque to the bridge), the launch or internal error message, or the
parsed payload passed through verbatim. -/
inductive StatusDetails where
  | codeDetails (code : Option Int)
  | parseFailure (stdout : String)
  | launchFailure (error : String)
  | internalFailure (error : String)
  | payload (status : JValue)

/-- The record `checkRAGSystemStatus` resolves with: the `ready` property (the
payload's `ready` field on the success path, hence possibly `undefined`, and
the literal `false` on every failure path), the message, and the details. -/
structure RagStatus where
  ready : Option JValue
  message : String
  details : StatusDetails

/-- How the probe promise settles; the source never calls `reject` (the
executor takes only `resolve`). -/
inductive ProbeResult where
  | resolved (st : RagStatus)
  | rejected

/-- The status record built from a non-null parsed payload (source lines
119-126): the `ready` property passed through, the synthesized message, and
the payload itself as `details`. -/
def statusFromPayload (status : JValue) : ProbeResult :=
  .resolved ⟨status.getField "ready",
    if jsTruthy (status.getField "ready") then
      "RAG system ready with " ++ jsFieldToString (status.getField "doc_count")
        ++ " documents"
    else "RAG system not ready - please build FAISS index",
    .payload status⟩

/-- Dispatch on the parsed status payload.  When the payload is JSON `null`,
reading `status.ready` throws a TypeError that the `catch` absorbs into the
parse-failure branch (source lines 127-133); every other parsed value supports
property access. -/
def dispatchStatus (stdout : String) : JValue → ProbeResult
  | .null =>
    .resolved ⟨some (.bool false), "Error parsing RAG system status",
      .parseFailure stdout⟩
  | .bool b => statusFromPayload (.bool b)
  | .num n => statusFromPayload (.num n)
  | .str s => statusFromPayload (.str s)
  | .arr xs => statusFromPayload (.arr xs)
  | .obj fs => statusFromPayload (.obj fs)

/-- The embedding of `checkRAGSystemStatus` (source lines 84-157) as a function
of the worker outcome. -/
def checkRAGSystemStatus (w : WorkerOutcome) : ProbeResult :=
  match w with
  | .spawnError msg =>
    .resolved ⟨some (.bool false), "Python environment not available",
      .launchFailure msg⟩
  | .internalError msg =>
    .resolved ⟨some (.bool false), "Error checking RAG system status",
      .internalFailure msg⟩
  | .exited code stdout =>
    if code ≠ some 0 then
      .resolved ⟨some (.bool false),
        "RAG system check failed (exit code " ++ jsCodeToString code ++ ")",
        .codeDetails code⟩
    else
      match jsonParse (jsonString stdout) with
      | none =>
        .resolved ⟨some (.bool false), "Error parsing RAG system status",
          .parseFailure stdout⟩
      | some status => dispatchStatus stdout status

/-- The argument vector passed to `spawn` for a readiness probe (source lines
98-100). -/
def statusWorkerArgs (scriptPath : String) : List String :=
  [scriptPath, "--check-status"]

/-- Whether a JSON value is a string. -/
def isStr : JValue → Bool
  | .str _ => true
  | _ => false

/-- Whether a JSON value is an array of strings. -/
def isStrArr : JValue → Bool
  | .arr xs => xs.all isStr
  | _ => false

/-- Conformance of a parsed retrieval payload to the worker response format of
the spec (section 6): an `error` field, when present, is a string, and a
`chunks` field, when present, is null or an array of strings. -/
def wellFormedPayload (p : JValue) : Bool :=
  (match p.getField "error" with
   | none => true
   | some (.str _) => true
   | some _ => false) &&
  (match p.getField "chunks" with
   | none => true
   | some .null => true
   | some c => isStrArr c)

/-- A worker outcome whose payload, when one is parsed at all, conforms to the
worker response format (the spec's taxonomy only quantifies over launch
failures, non-zero exits, unparseable output, and well-formed payloads). -/
def wellFormedOutcome : WorkerOutcome → Bool
  | .exited code stdout =>
    if code = some 0 then
      match jsonParse (jsonString stdout) with
      | some p => wellFormedPayload p
      | none => true
    else true
  | _ => true

/-- The failure paths of the readiness probe: process-launch failure, internal
error, non-zero (or null) exit code, and parse failure (including the JSON
`null` payload, on which property access throws inside the `try`). -/
def probeFailurePath : WorkerOutcome → Bool
  | .spawnError _ => true
  | .internalError _ => true
  | .exited code stdout =>
    code != some 0 ||
      (match jsonParse (jsonString stdout) with
       | none => true
       | some .null => true
       | some _ => false)

/-! ### Helper lemmas -/

theorem all_isStr_elim (xs : List JValue) (h : ∀ x ∈ xs, isStr x = true) :
    ∃ ss : List String, xs = ss.map .str := by
  induction xs with
  | nil => exact ⟨[], rfl⟩
  | cons x xs ih =>
    have hx := h x (List.mem_cons_self x xs)
    obtain ⟨ss, rfl⟩ := ih fun y hy => h y (List.mem_cons_of_mem x hy)
    cases x <;> simp [isStr] at hx
    case str s => exact ⟨s :: ss, rfl⟩

theorem getField_obj_of_some {p : JValue} {key : String} {v : JValue}
    (h : p.getField key = some v) : ∃ fs, p = .obj fs := by
  cases p
  case obj fs => exact ⟨fs, rfl⟩
  all_goals simp [JValue.getField] at h

/-! ### Claim C2 -/

/-- Claim C2: for every non-empty query, if the worker process exits with any
status code different from 0, `queryFAISSVectorStore` resolves (never rejects)
to the fixed two-element advisory list — a temporarily-unavailable line plus a
remediation hint. -/
theorem C2_nonzero_exit_two_element_advisory
    (query : String) (topK : Int) (code : Int) (stdout : String)
    (hq : query ≠ "") (hc : code ≠ 0) :
    queryFAISSVectorStore query topK (.exited (some code) stdout) =
      .resolved (.arr
        [.str "RAG system temporarily unavailable. Using general medical knowledge.",
         .str "Please ensure the FAISS index is properly built from your medical documents."]) := by
  simp [queryFAISSVectorStore, exitFailureAdvisory, hc]

/-- Witness for C2 at a concrete non-empty query and exit code 1. -/
theorem C2_witness :
    ("what is diabetes" : String) ≠ "" ∧ (1 : Int) ≠ 0 ∧
    queryFAISSVectorStore "what is diabetes" 5 (.exited (some 1) "traceback") =
      .resolved (.arr
        [.str "RAG system temporarily unavailable. Using general medical knowledge.",
         .str "Please ensure the FAISS index is properly built from your medical documents."]) :=
  ⟨by decide, by decide,
    C2_nonzero_exit_two_element_advisory "what is diabetes" 5 1 "traceback"
      (by decide) (by decide)⟩

/-! ### Claim C7 -/

/-- Claim C7: if the worker process fails to launch (the spawn `error` event
fires), `checkRAGSystemStatus` resolves — never throwing — to `ready = false`
with message exactly "Python environment not available" and the launch-error
context as details. -/
theorem C7_spawn_error_python_env_unavailable (message : String) :
    checkRAGSystemStatus (.spawnError message) =
      .resolved ⟨some (.bool false), "Python environment not available",
        .launchFailure message⟩ := rfl

/-! ### Claim C9 -/

/-- Claim C9 (code evaluated at the failing input): a `topK` of 0 or a negative
`topK` is passed through verbatim as the `--top-k` argument of the spawned
worker, with no rejection or clamping anywhere in `queryFAISSVectorStore`. -/
theorem C9_nonpositive_topk_passed_through :
    queryWorkerArgs "lib/rag_service.py" "what is diabetes" 0 =
      ["lib/rag_service.py", "what is diabetes", "--top-k", "0"] ∧
    queryWorkerArgs "lib/rag_service.py" "what is diabetes" (-3) =
      ["lib/rag_service.py", "what is diabetes", "--top-k", "-3"] :=
  ⟨rfl, rfl⟩

/-! ### Claim C1 -/

theorem dispatchPayload_resolved (p : JValue) :
    ∃ v, dispatchPayload p = .resolved v := by
  cases p with
  | null => exact ⟨_, rfl⟩
  | bool b => exact ⟨_, rfl⟩
  | num n => exact ⟨_, rfl⟩
  | str s => exact ⟨_, rfl⟩
  | arr xs => exact ⟨_, rfl⟩
  | obj fs =>
    unfold dispatchPayload dispatchNonNull
    by_cases h : jsTruthy ((JValue.obj fs).getField "error") <;> simp [h]

theorem wellFormedPayload_error {p : JValue} (h : wellFormedPayload p = true)
    {e : JValue} (he : p.getField "error" = some e) : ∃ s, e = .str s := by
  rw [wellFormedPayload, Bool.and_eq_true] at h
  obtain ⟨h1, _⟩ := h
  rw [he] at h1
  cases e <;> simp at h1
  exact ⟨_, rfl⟩

theorem wellFormedPayload_chunks {p : JValue} (h : wellFormedPayload p = true) :
    p.getField "chunks" = none ∨ p.getField "chunks" = some .null ∨
      ∃ c, p.getField "chunks" = some c ∧ isStrArr c = true := by
  rw [wellFormedPayload, Bool.and_eq_true] at h
  obtain ⟨_, h2⟩ := h
  cases hc : p.getField "chunks" with
  | none => exact Or.inl rfl
  | some c =>
    rw [hc] at h2
    cases c
    case null => exact Or.inr (Or.inl rfl)
    all_goals exact Or.inr (Or.inr ⟨_, rfl, by simp [isStrArr] at h2 ⊢ <;> exact h2⟩)

theorem chunksPath_stringList (r : JValue)
    (hch : r.getField "chunks" = none ∨ r.getField "chunks" = some .null ∨
      ∃ c, r.getField "chunks" = some c ∧ isStrArr c = true) :
    ∃ ss : List String, jsOr (r.getField "chunks") (.arr []) = .arr (ss.map .str) := by
  rcases hch with h | h | ⟨c, hc, hs⟩
  · exact ⟨[], by simp [h, jsOr]⟩
  · exact ⟨[], by simp [h, jsOr, jsTruthyV]⟩
  · cases c <;> simp [isStrArr] at hs
    case arr xs =>
      obtain ⟨ss, rfl⟩ := all_isStr_elim xs hs
      exact ⟨ss, by simp [hc, jsOr, jsTruthyV]⟩

theorem dispatchPayload_wellFormed (p : JValue) (h : wellFormedPayload p = true) :
    ∃ ss : List String, dispatchPayload p = .resolved (.arr (ss.map .str)) := by
  have hch := wellFormedPayload_chunks h
  cases p with
  | null =>
    exact ⟨["Error processing RAG query. Please check the system configuration."], rfl⟩
  | bool b => exact ⟨[], rfl⟩
  | num n => exact ⟨[], rfl⟩
  | str s => exact ⟨[], rfl⟩
  | arr xs => exact ⟨[], rfl⟩
  | obj fs =>
    show ∃ ss, dispatchNonNull (.obj fs) = _
    cases herr : (JValue.obj fs).getField "error" with
    | none =>
      obtain ⟨ss, hss⟩ := chunksPath_stringList (.obj fs) hch
      exact ⟨ss, by simp [dispatchNonNull, herr, jsTruthy, hss]⟩
    | some e =>
      obtain ⟨s, rfl⟩ := wellFormedPayload_error h herr
      by_cases hs : s = ""
      · subst hs
        obtain ⟨ss, hss⟩ := chunksPath_stringList (.obj fs) hch
        exact ⟨ss, by simp [dispatchNonNull, herr, jsTruthy, jsTruthyV, hss]⟩
      · exact ⟨[s], by simp [dispatchNonNull, herr, jsTruthy, jsTruthyV, hs]⟩

/-- Claim C1: for every query, every topK, and every behavior of the external
worker — launch failure, non-zero exit, unparseable output, or well-formed
payload — `queryFAISSVectorStore` never rejects: it always resolves, and on the
outcomes of the spec's taxonomy (any failure, or a payload conforming to the
worker response format) the resolved value is a list of strings, possibly a
synthetic advisory list. -/
theorem C1_retrieve_never_rejects (query : String) (topK : Int) (w : WorkerOutcome) :
    (∃ v, queryFAISSVectorStore query topK w = .resolved v) ∧
    (wellFormedOutcome w = true →
      ∃ ss : List String,
        queryFAISSVectorStore query topK w = .resolved (.arr (ss.map .str))) := by
  cases w with
  | spawnError m =>
    exact ⟨⟨_, rfl⟩, fun _ =>
      ⟨["RAG system unavailable. Please ensure Python dependencies are installed.",
        "Run: pip install -r requirements.txt"], rfl⟩⟩
  | internalError m =>
    exact ⟨⟨_, rfl⟩, fun _ => ⟨["RAG system error. Using fallback response."], rfl⟩⟩
  | exited code stdout =>
    by_cases hcode : code = some 0
    · subst hcode
      cases hp : jsonParse (jsonString stdout) with
      | none =>
        constructor
        · exact ⟨.arr parseFailureAdvisory, by simp [queryFAISSVectorStore, hp]⟩
        · exact fun _ =>
            ⟨["Error processing RAG query. Please check the system configuration."],
             by simp [queryFAISSVectorStore, hp, parseFailureAdvisory]⟩
      | some p =>
        have hq : queryFAISSVectorStore query topK (.exited (some 0) stdout) =
            dispatchPayload p := by
          simp [queryFAISSVectorStore, hp]
        constructor
        · rw [hq]; exact dispatchPayload_resolved p
        · intro hwf
          rw [hq]
          simp [wellFormedOutcome, hp] at hwf
          exact dispatchPayload_wellFormed p hwf
    · refine ⟨⟨.arr exitFailureAdvisory, ?_⟩, fun _ =>
        ⟨["RAG system temporarily unavailable. Using general medical knowledge.",
          "Please ensure the FAISS index is properly built from your medical documents."],
         ?_⟩⟩ <;>
        simp [queryFAISSVectorStore, hcode, exitFailureAdvisory]

/-- Witness for C1 at a worker run returning a well-formed chunks payload. -/
theorem C1_witness :
    wellFormedOutcome (.exited (some 0) "\x7b\"chunks\":[\"a\"]\x7d") = true ∧
    (∃ ss : List String,
      queryFAISSVectorStore "q" 5 (.exited (some 0) "\x7b\"chunks\":[\"a\"]\x7d") =
        .resolved (.arr (ss.map .str))) :=
  ⟨rfl, (C1_retrieve_never_rejects "q" 5
    (.exited (some 0) "\x7b\"chunks\":[\"a\"]\x7d")).2 rfl⟩

/-! ### Claim C6 -/

theorem string_append_right_ne_empty (a b : String) (hb : b.length = 1) :
    a ++ b ≠ "" := by
  intro h
  have hlen := congrArg String.length h
  rw [String.length_append, hb] at hlen
  simp at hlen

/-- Claim C6: for every behavior of the worker on a readiness probe,
`checkRAGSystemStatus` never rejects, and on every failure path — non-zero
exit, parse failure, process-launch failure, or internal error — it resolves
to a status with `ready = false` together with a non-empty diagnostic message
and best-effort details. -/
theorem C6_probe_never_rejects (w : WorkerOutcome) :
    (∃ st, checkRAGSystemStatus w = .resolved st) ∧
    (probeFailurePath w = true →
      ∃ m d, checkRAGSystemStatus w = .resolved ⟨some (.bool false), m, d⟩ ∧
        m ≠ "") := by
  cases w with
  | spawnError msg =>
    exact ⟨⟨_, rfl⟩, fun _ =>
      ⟨"Python environment not available", .launchFailure msg, rfl, by decide⟩⟩
  | internalError msg =>
    exact ⟨⟨_, rfl⟩, fun _ =>
      ⟨"Error checking RAG system status", .internalFailure msg, rfl, by decide⟩⟩
  | exited code stdout =>
    by_cases hcode : code = some 0
    · subst hcode
      cases hp : jsonParse (jsonString stdout) with
      | none =>
        refine ⟨⟨⟨some (.bool false), "Error parsing RAG system status",
          .parseFailure stdout⟩, ?_⟩, fun _ =>
          ⟨"Error parsing RAG system status", .parseFailure stdout, ?_, by decide⟩⟩ <;>
          simp [checkRAGSystemStatus, hp]
      | some p =>
        have hq : checkRAGSystemStatus (.exited (some 0) stdout) =
            dispatchStatus stdout p := by
          simp [checkRAGSystemStatus, hp]
        cases p with
        | null =>
          exact ⟨⟨_, by rw [hq]; rfl⟩, fun _ =>
            ⟨"Error parsing RAG system status", .parseFailure stdout,
             by rw [hq]; rfl, by decide⟩⟩
        | bool b =>
          exact ⟨⟨_, by rw [hq]; rfl⟩,
            fun hw => by simp [probeFailurePath, hp] at hw⟩
        | num n =>
          exact ⟨⟨_, by rw [hq]; rfl⟩,
            fun hw => by simp [probeFailurePath, hp] at hw⟩
        | str s =>
          exact ⟨⟨_, by rw [hq]; rfl⟩,
            fun hw => by simp [probeFailurePath, hp] at hw⟩
        | arr xs =>
          exact ⟨⟨_, by rw [hq]; rfl⟩,
            fun hw => by simp [probeFailurePath, hp] at hw⟩
        | obj fs =>
          exact ⟨⟨_, by rw [hq]; rfl⟩,
            fun hw => by simp [probeFailurePath, hp] at hw⟩
    · refine ⟨⟨⟨some (.bool false),
        "RAG system check failed (exit code " ++ jsCodeToString code ++ ")",
        .codeDetails code⟩, ?_⟩, fun _ =>
        ⟨"RAG system check failed (exit code " ++ jsCodeToString code ++ ")",
         .codeDetails code, ?_,
         string_append_right_ne_empty _ ")" rfl⟩⟩ <;>
        simp [checkRAGSystemStatus, hcode]

/-- Witness for C6 at a probe run that exits with code 1. -/
theorem C6_witness :
    probeFailurePath (.exited (some 1) "") = true ∧
    (∃ m d, checkRAGSystemStatus (.exited (some 1) "") =
      .resolved ⟨some (.bool false), m, d⟩ ∧ m ≠ "") :=
  ⟨rfl, (C6_probe_never_rejects (.exited (some 1) "")).2 rfl⟩

/-! ### Claim C8 -/

/-- Claim C8: for every readiness probe where the worker exits with code 0 and
its output parses to a payload with a boolean `ready` field and an (integer)
`doc_count`, `checkRAGSystemStatus` returns that ready flag, a message
synthesized as "RAG system ready with N documents" when the flag is true and
the not-ready build-the-index message when it is false, with the payload
passed through verbatim as details. -/
theorem C8_status_payload_synthesis
    (stdout : String) (p : JValue) (b : Bool) (n : Int)
    (hp : jsonParse (jsonString stdout) = some p)
    (hr : p.getField "ready" = some (.bool b))
    (hd : p.getField "doc_count" = some (.num n)) :
    checkRAGSystemStatus (.exited (some 0) stdout) =
      .resolved ⟨some (.bool b),
        if b then "RAG system ready with " ++ toString n ++ " documents"
        else "RAG system not ready - please build FAISS index",
        .payload p⟩ := by
  obtain ⟨fs, rfl⟩ := getField_obj_of_some hr
  cases b <;>
    simp [checkRAGSystemStatus, hp, dispatchStatus, statusFromPayload, hr, hd,
      jsTruthy, jsTruthyV, jsFieldToString, jsToString]

/-- Witness for C8 at the payload `{ready: true, doc_count: 3}`. -/
theorem C8_witness :
    jsonParse (jsonString "\x7b\"ready\":true,\"doc_count\":3\x7d") =
      some (.obj [("ready", .bool true), ("doc_count", .num 3)]) ∧
    checkRAGSystemStatus (.exited (some 0) "\x7b\"ready\":true,\"doc_count\":3\x7d") =
      .resolved ⟨some (.bool true), "RAG system ready with 3 documents",
        .payload (.obj [("ready", .bool true), ("doc_count", .num 3)])⟩ :=
  ⟨rfl, by
    have := C8_status_payload_synthesis "\x7b\"ready\":true,\"doc_count\":3\x7d"
      (.obj [("ready", .bool true), ("doc_count", .num 3)]) true 3 rfl rfl rfl
    simpa using this⟩

/-! ### Claim C5 -/

theorem indexOfBrace_append_of_head (l1 l2 : List Char) (r : List Char)
    (h1 : ∀ c ∈ l1, c ≠ '\x7b') (h2 : l2 = '\x7b' :: r) :
    indexOfBrace (l1 ++ l2) = some l1.length := by
  induction l1 with
  | nil => simp [h2, indexOfBrace]
  | cons c cs ih =>
    have hc : c ≠ '\x7b' := h1 c (List.mem_cons_self c cs)
    simp [indexOfBrace, hc, ih fun x hx => h1 x (List.mem_cons_of_mem c hx)]

theorem jsonString_concat (pre pay : String)
    (hpre : ∀ c ∈ pre.toList, c ≠ '\x7b')
    (hpay : ∃ r, pay.toList = '\x7b' :: r) :
    jsonString (pre ++ pay) = pay := by
  obtain ⟨r, hr⟩ := hpay
  have htl : (pre ++ pay).toList = pre.toList ++ pay.toList := rfl
  rw [jsonString, htl, indexOfBrace_append_of_head pre.toList pay.toList r hpre hr]
  show String.mk ((pre.toList ++ pay.toList).drop pre.toList.length) = pay
  rw [List.drop_left]
  rfl

theorem jsonString_of_head (pay : String) (hpay : ∃ r, pay.toList = '\x7b' :: r) :
    jsonString pay = pay := by
  obtain ⟨r, hr⟩ := hpay
  rw [jsonString, hr]
  simp only [indexOfBrace, if_pos rfl, List.drop_zero]
  rw [← hr]
  rfl

/-- Claim C5 is false as stated: leading bytes are arbitrary only up to the
JSON delimiter — when the junk before a valid payload itself contains a brace,
the bridge parses from that earlier brace and parsing fails, yielding the
parse-failure advisory instead of the payload. -/
theorem C5_counterexample :
    jsonParse "\x7b\"chunks\":[\"a\"]\x7d" = some (.obj [("chunks", .arr [.str "a"])]) ∧
    jsonParse (jsonString ("\x7b" ++ "\x7b\"chunks\":[\"a\"]\x7d")) = none ∧
    queryFAISSVectorStore "q" 5 (.exited (some 0) ("\x7b" ++ "\x7b\"chunks\":[\"a\"]\x7d")) =
      .resolved (.arr
        [.str "Error processing RAG query. Please check the system configuration."]) :=
  ⟨rfl, rfl, rfl⟩

/-- Claim C5 (amended): for every worker stdout consisting of leading bytes
that contain no brace followed by a valid JSON payload (which begins with the
first brace of the stream), the bridge locates that first brace, parses only
the substring from that offset onward, and succeeds — the leading content is
discarded and never treated as an error, so the run behaves exactly as if the
payload had arrived alone. -/
theorem C5_amended_brace_free_junk_discarded
    (query : String) (topK : Int) (pre pay : String) (p : JValue)
    (hpre : ∀ c ∈ pre.toList, c ≠ '\x7b')
    (hpay : ∃ r, pay.toList = '\x7b' :: r)
    (hp : jsonParse pay = some p) :
    jsonString (pre ++ pay) = pay ∧
    jsonParse (jsonString (pre ++ pay)) = some p ∧
    queryFAISSVectorStore query topK (.exited (some 0) (pre ++ pay)) =
      queryFAISSVectorStore query topK (.exited (some 0) pay) := by
  have h1 := jsonString_concat pre pay hpre hpay
  have h0 := jsonString_of_head pay hpay
  refine ⟨h1, ?_, ?_⟩
  · rw [h1]; exact hp
  · simp [queryFAISSVectorStore, h1, h0]

/-- Witness for C5 (amended): a log line before the payload is discarded. -/
theorem C5_witness :
    (∀ c ∈ ("Loading FAISS index...\n" : String).toList, c ≠ '\x7b') ∧
    jsonParse "\x7b\"chunks\":[\"a\"]\x7d" = some (.obj [("chunks", .arr [.str "a"])]) ∧
    jsonString ("Loading FAISS index...\n" ++ "\x7b\"chunks\":[\"a\"]\x7d") =
      "\x7b\"chunks\":[\"a\"]\x7d" ∧
    queryFAISSVectorStore "q" 5
        (.exited (some 0) ("Loading FAISS index...\n" ++ "\x7b\"chunks\":[\"a\"]\x7d")) =
      queryFAISSVectorStore "q" 5 (.exited (some 0) "\x7b\"chunks\":[\"a\"]\x7d") := by
  have h := C5_amended_brace_free_junk_discarded "q" 5 "Loading FAISS index...\n"
    "\x7b\"chunks\":[\"a\"]\x7d" (.obj [("chunks", .arr [.str "a"])])
    (by decide) ⟨_, rfl⟩ rfl
  exact ⟨by decide, rfl, h.1, h.2.2⟩

/-! ### Claim C3 -/

/-- Claim C3 is false as stated: the payload `{error: ""}` carries an error
field, yet the bridge resolves to the empty chunks list rather than to the
single-element list `[""]`, because the empty string is falsy in the
`if (result.error)` test. -/
theorem C3_counterexample :
    queryFAISSVectorStore "q" 5 (.exited (some 0) "\x7b\"error\":\"\"\x7d") =
      .resolved (.arr []) ∧
    queryFAISSVectorStore "q" 5 (.exited (some 0) "\x7b\"error\":\"\"\x7d") ≠
      .resolved (.arr [.str ""]) := by
  refine ⟨rfl, fun h => ?_⟩
  rw [show queryFAISSVectorStore "q" 5 (.exited (some 0) "\x7b\"error\":\"\"\x7d") =
      .resolved (.arr []) from rfl] at h
  simp at h

/-- Claim C3 (amended): for every worker run that exits with code 0 and whose
standard output parses to a payload carrying a non-empty (truthy) string error
field `e`, `queryFAISSVectorStore` resolves to exactly the single-element list
containing the error text verbatim. -/
theorem C3_amended_nonempty_error_surfaced
    (query : String) (topK : Int) (stdout : String) (p : JValue) (e : String)
    (hp : jsonParse (jsonString stdout) = some p)
    (he : p.getField "error" = some (.str e))
    (hne : e ≠ "") :
    queryFAISSVectorStore query topK (.exited (some 0) stdout) =
      .resolved (.arr [.str e]) := by
  obtain ⟨fs, rfl⟩ := getField_obj_of_some he
  simp [queryFAISSVectorStore, hp, dispatchPayload, dispatchNonNull, he,
    jsTruthy, jsTruthyV, hne]

/-- Witness for C3 (amended) at the payload `{error: "X"}`. -/
theorem C3_witness :
    jsonParse (jsonString "\x7b\"error\":\"X\"\x7d") =
      some (.obj [("error", .str "X")]) ∧
    (JValue.obj [("error", .str "X")]).getField "error" = some (.str "X") ∧
    queryFAISSVectorStore "q" 5 (.exited (some 0) "\x7b\"error\":\"X\"\x7d") =
      .resolved (.arr [.str "X"]) :=
  ⟨rfl, rfl,
    C3_amended_nonempty_error_surfaced "q" 5 "\x7b\"error\":\"X\"\x7d"
      (.obj [("error", .str "X")]) "X" rfl rfl (by decide)⟩

/-! ### Claim C4 -/

/-- Claim C4 is false as stated: a payload that carries a chunks list together
with a truthy error field resolves to the error advisory, not to the chunks
list. -/
theorem C4_counterexample :
    queryFAISSVectorStore "q" 5
        (.exited (some 0)
          "\x7b\"error\":\"E\",\"chunks\":[\"a\",\"b\"],\"chunk_count\":2\x7d") =
      .resolved (.arr [.str "E"]) ∧
    queryFAISSVectorStore "q" 5
        (.exited (some 0)
          "\x7b\"error\":\"E\",\"chunks\":[\"a\",\"b\"],\"chunk_count\":2\x7d") ≠
      .resolved (.arr [.str "a", .str "b"]) := by
  refine ⟨rfl, fun h => ?_⟩
  rw [show queryFAISSVectorStore "q" 5
      (.exited (some 0)
        "\x7b\"error\":\"E\",\"chunks\":[\"a\",\"b\"],\"chunk_count\":2\x7d") =
      .resolved (.arr [.str "E"]) from rfl] at h
  simp at h

/-- Claim C4 (amended): for every worker run that exits with code 0 and whose
payload carries a chunks list and no truthy error field,
`queryFAISSVectorStore` resolves to exactly that list of snippets in the same
order — no deduplication, re-ranking, insertion, or removal. -/
theorem C4_amended_chunks_preserved_in_order
    (query : String) (topK : Int) (stdout : String) (p : JValue)
    (chunks : List JValue)
    (hp : jsonParse (jsonString stdout) = some p)
    (he : jsTruthy (p.getField "error") = false)
    (hc : p.getField "chunks" = some (.arr chunks)) :
    queryFAISSVectorStore query topK (.exited (some 0) stdout) =
      .resolved (.arr chunks) := by
  obtain ⟨fs, rfl⟩ := getField_obj_of_some hc
  simp [queryFAISSVectorStore, hp, dispatchPayload, dispatchNonNull, he, hc,
    jsOr, jsTruthyV]

/-- Witness for C4 (amended) at the payload
`{chunks: ["a","b"], chunk_count: 2}` (duplicate-free order-sensitive list). -/
theorem C4_witness :
    jsonParse (jsonString "\x7b\"chunks\":[\"a\",\"b\"],\"chunk_count\":2\x7d") =
      some (.obj [("chunks", .arr [.str "a", .str "b"]), ("chunk_count", .num 2)]) ∧
    queryFAISSVectorStore "q" 5
        (.exited (some 0) "\x7b\"chunks\":[\"a\",\"b\"],\"chunk_count\":2\x7d") =
      .resolved (.arr [.str "a", .str "b"]) :=
  ⟨rfl,
    C4_amended_chunks_preserved_in_order "q" 5
      "\x7b\"chunks\":[\"a\",\"b\"],\"chunk_count\":2\x7d"
      (.obj [("chunks", .arr [.str "a", .str "b"]), ("chunk_count", .num 2)])
      [.str "a", .str "b"] rfl rfl rfl⟩

/-! ### Claim C10 -/

/-- Claim C10 is false as stated: the stdout `null` parses (the whole output is
handed to the parser since it contains no brace) to a payload with no error
field and no chunks field, yet the bridge resolves to the parse-failure
advisory — reading `result.error` on JSON `null` throws a TypeError absorbed by
the `catch` — rather than to the empty list. -/
theorem C10_counterexample :
    jsonParse (jsonString "null") = some .null ∧
    queryFAISSVectorStore "q" 5 (.exited (some 0) "null") =
      .resolved (.arr
        [.str "Error processing RAG query. Please check the system configuration."]) ∧
    queryFAISSVectorStore "q" 5 (.exited (some 0) "null") ≠
      .resolved (.arr []) := by
  refine ⟨rfl, rfl, fun h => ?_⟩
  rw [show queryFAISSVectorStore "q" 5 (.exited (some 0) "null") =
      .resolved (.arr
        [.str "Error processing RAG query. Please check the system configuration."])
      from rfl] at h
  simp at h

/-- Claim C10 (amended): for every worker run that exits with code 0 and whose
output parses to a non-null payload with no truthy error field and a chunks
field that is null or absent, `queryFAISSVectorStore` resolves to the empty
list — "parsed but empty" is silently treated as zero retrieved snippets. -/
theorem C10_amended_parsed_but_empty
    (query : String) (topK : Int) (stdout : String) (p : JValue)
    (hp : jsonParse (jsonString stdout) = some p)
    (hnn : p ≠ .null)
    (he : jsTruthy (p.getField "error") = false)
    (hc : p.getField "chunks" = none ∨ p.getField "chunks" = some .null) :
    queryFAISSVectorStore query topK (.exited (some 0) stdout) =
      .resolved (.arr []) := by
  cases p <;>
    rcases hc with hc | hc <;>
      simp_all [queryFAISSVectorStore, dispatchPayload, dispatchNonNull,
        jsOr, jsTruthyV, JValue.getField]

/-- Witness for C10 (amended) at the payload `{chunk_count: 0}`. -/
theorem C10_witness :
    jsonParse (jsonString "\x7b\"chunk_count\":0\x7d") =
      some (.obj [("chunk_count", .num 0)]) ∧
    queryFAISSVectorStore "q" 5 (.exited (some 0) "\x7b\"chunk_count\":0\x7d") =
      .resolved (.arr []) :=
  ⟨rfl,
    C10_amended_parsed_but_empty "q" 5 "\x7b\"chunk_count\":0\x7d"
      (.obj [("chunk_count", .num 0)]) rfl (by simp) rfl (Or.inl rfl)⟩
